import Mathlib

/-!
Verification development for the `pydantic-snowflake` adapter
(`src/pydantic_to_snowflake.py`).  The Python source is shallowly embedded:
pure functions become Lean functions, the fallible connection interactions
become explicit `Except`/environment parameters, and the claims of the
specification are settled as theorems about these definitions.
-/

/-- A Python runtime value, as far as the value-normalization code of the
adapter observes it: primitive scalars, lists, tuples, sets, dicts
(arbitrary keys), Pydantic `BaseModel` instances (an ordered mapping from
field name to field value), and NumPy generic scalars wrapping a native
scalar (`val.item()` unwraps them). -/
inductive PyVal where
  | vInt (n : Int)
  | vStr (s : String)
  | vBool (b : Bool)
  | vNone
  | vList (xs : List PyVal)
  | vTuple (xs : List PyVal)
  | vSet (xs : List PyVal)
  | vDict (es : List (PyVal × PyVal))
  | vModel (fs : List (String × PyVal))
  | vNp (v : PyVal)

namespace PyVal

mutual

/-- Python's `str()` on the values of the embedding, used by
`_make_json_serializable` to coerce non-string dict keys.  The rendering
of nested container elements abstracts from `repr()` punctuation; nothing
in the development depends on the rendered text, only on the result being
a string. -/
def pyStr : PyVal → String
  | vInt n => toString n
  | vStr s => s
  | vBool true => "True"
  | vBool false => "False"
  | vNone => "None"
  | vList xs => "[" ++ String.intercalate ", " (pyStrList xs) ++ "]"
  | vTuple xs => "(" ++ String.intercalate ", " (pyStrList xs) ++ ")"
  | vSet xs => "\x7b" ++ String.intercalate ", " (pyStrList xs) ++ "\x7d"
  | vDict es => "\x7b" ++ String.intercalate ", " (pyStrEntries es) ++ "\x7d"
  | vModel fs => "model(" ++ String.intercalate ", " (pyStrFields fs) ++ ")"
  | vNp v => pyStr v

/-- `str()` of each element of a list of values. -/
def pyStrList : List PyVal → List String
  | [] => []
  | x :: xs => pyStr x :: pyStrList xs

/-- `str()` rendering of dict entries. -/
def pyStrEntries : List (PyVal × PyVal) → List String
  | [] => []
  | (k, v) :: es => (pyStr k ++ ": " ++ pyStr v) :: pyStrEntries es

/-- `str()` rendering of model fields. -/
def pyStrFields : List (String × PyVal) → List String
  | [] => []
  | (n, v) :: fs => (n ++ "=" ++ pyStr v) :: pyStrFields fs

end

end PyVal

open PyVal

mutual

/-- Pydantic's `model_dump()` in python mode: every `BaseModel` instance
(at any depth) becomes a plain dict keyed by its field names; lists,
tuples, sets and dict keys are preserved as they are. -/
def model_dump : PyVal → PyVal
  | .vModel fs => .vDict (model_dumpFields fs)
  | .vList xs => .vList (model_dumpList xs)
  | .vTuple xs => .vTuple (model_dumpList xs)
  | .vSet xs => .vSet (model_dumpList xs)
  | .vDict es => .vDict (model_dumpEntries es)
  | .vNp v => .vNp (model_dump v)
  | v => v

/-- `model_dump` mapped over a list of values. -/
def model_dumpList : List PyVal → List PyVal
  | [] => []
  | x :: xs => model_dump x :: model_dumpList xs

/-- `model_dump` mapped over dict entries (values only; keys preserved). -/
def model_dumpEntries : List (PyVal × PyVal) → List (PyVal × PyVal)
  | [] => []
  | (k, v) :: es => (k, model_dump v) :: model_dumpEntries es

/-- `model_dump` mapped over model fields, turning them into dict entries
with string keys. -/
def model_dumpFields : List (String × PyVal) → List (PyVal × PyVal)
  | [] => []
  | (n, v) :: fs => (.vStr n, model_dump v) :: model_dumpFields fs

end

mutual

/-- `PydanticToSnowflake._make_json_serializable`, translated clause by
clause from the source: NumPy generics are unwrapped with `.item()`;
dicts are rebuilt with non-string keys stringified and values recursively
converted; lists and tuples become lists of recursively converted
elements; `BaseModel` instances return `model_dump()`; everything else is
returned unchanged. -/
def make_json_serializable : PyVal → PyVal
  | .vNp v => v
  | .vDict es => .vDict (make_json_serializableEntries es)
  | .vList xs => .vList (make_json_serializableList xs)
  | .vTuple xs => .vList (make_json_serializableList xs)
  | .vModel fs => model_dump (.vModel fs)
  | v => v

/-- The per-element recursion of `_make_json_serializable` over list and
tuple contents. -/
def make_json_serializableList : List PyVal → List PyVal
  | [] => []
  | x :: xs => make_json_serializable x :: make_json_serializableList xs

/-- The per-entry recursion of `_make_json_serializable` over dict items:
`new_key = k if isinstance(k, str) else str(k)`, value recursively
converted. -/
def make_json_serializableEntries : List (PyVal × PyVal) → List (PyVal × PyVal)
  | [] => []
  | (k, v) :: es =>
      (match k with
        | .vStr s => .vStr s
        | k => .vStr (pyStr k), make_json_serializable v) :: make_json_serializableEntries es

end

mutual

/-- Does a value contain, at any nesting depth, a tuple, a set, a
`BaseModel` instance, or a mapping entry with a non-string key?  This is
the negation of the normalization invariant claimed by the spec. -/
def containsForbidden : PyVal → Bool
  | .vList xs => containsForbiddenList xs
  | .vTuple _ => true
  | .vSet _ => true
  | .vDict es => containsForbiddenEntries es
  | .vModel _ => true
  | .vNp v => containsForbidden v
  | _ => false

/-- `containsForbidden` over the elements of a sequence. -/
def containsForbiddenList : List PyVal → Bool
  | [] => false
  | x :: xs => containsForbidden x || containsForbiddenList xs

/-- `containsForbidden` over dict entries: a non-string key is itself
forbidden; values are examined recursively. -/
def containsForbiddenEntries : List (PyVal × PyVal) → Bool
  | [] => false
  | (k, v) :: es =>
      (match k with | .vStr _ => false | _ => true)
        || containsForbidden v || containsForbiddenEntries es

end

mutual

/-- A value built from primitive scalars, lists, tuples and dicts only:
no sets, no `BaseModel` instances, no NumPy scalars.  This is the input
domain named by the idempotence property. -/
def plainVal : PyVal → Bool
  | .vInt _ | .vStr _ | .vBool _ | .vNone => true
  | .vList xs => plainValList xs
  | .vTuple xs => plainValList xs
  | .vDict es => plainValEntries es
  | .vSet _ => false
  | .vModel _ => false
  | .vNp _ => false

/-- `plainVal` over the elements of a sequence. -/
def plainValList : List PyVal → Bool
  | [] => true
  | x :: xs => plainVal x && plainValList xs

/-- `plainVal` over dict entries (keys and values alike). -/
def plainValEntries : List (PyVal × PyVal) → Bool
  | [] => true
  | (k, v) :: es => plainVal k && plainVal v && plainValEntries es

end

mutual

/-- A value free of sets and `BaseModel` instances at every depth, in
which every NumPy scalar wraps a native primitive (as genuine
`np.generic` values do).  The widest input domain on which the
normalization invariant actually holds. -/
def normalizable : PyVal → Bool
  | .vInt _ | .vStr _ | .vBool _ | .vNone => true
  | .vList xs => normalizableList xs
  | .vTuple xs => normalizableList xs
  | .vDict es => normalizableEntries es
  | .vSet _ => false
  | .vModel _ => false
  | .vNp v =>
      match v with
      | .vInt _ | .vStr _ | .vBool _ | .vNone => true
      | _ => false

/-- `normalizable` over the elements of a sequence. -/
def normalizableList : List PyVal → Bool
  | [] => true
  | x :: xs => normalizable x && normalizableList xs

/-- `normalizable` over dict entries (keys and values alike). -/
def normalizableEntries : List (PyVal × PyVal) → Bool
  | [] => true
  | (k, v) :: es => normalizable k && normalizable v && normalizableEntries es

end

mutual

/-- A fully normalized value: scalars, lists of normalized values, and
dicts whose keys are all strings and whose values are normalized.
`make_json_serializable` is the identity exactly on these. -/
def normalForm : PyVal → Bool
  | .vInt _ | .vStr _ | .vBool _ | .vNone => true
  | .vList xs => normalFormList xs
  | .vDict es => normalFormEntries es
  | .vTuple _ => false
  | .vSet _ => false
  | .vModel _ => false
  | .vNp _ => false

/-- `normalForm` over the elements of a sequence. -/
def normalFormList : List PyVal → Bool
  | [] => true
  | x :: xs => normalForm x && normalFormList xs

/-- `normalForm` over dict entries: string key, normalized value. -/
def normalFormEntries : List (PyVal × PyVal) → Bool
  | [] => true
  | (k, v) :: es =>
      (match k with | .vStr _ => true | _ => false)
        && normalForm v && normalFormEntries es

end

mutual

theorem normalizable_mjs_normalForm :
    ∀ v : PyVal, normalizable v = true →
      normalForm (make_json_serializable v) = true
  | .vInt _, _ => rfl
  | .vStr _, _ => rfl
  | .vBool _, _ => rfl
  | .vNone, _ => rfl
  | .vList xs, h => normalizable_mjs_normalForm_list xs h
  | .vTuple xs, h => normalizable_mjs_normalForm_list xs h
  | .vDict es, h => normalizable_mjs_normalForm_entries es h
  | .vNp v, h => by
      cases v with
      | vInt n => rfl
      | vStr s => rfl
      | vBool b => rfl
      | vNone => rfl
      | vList xs => exact absurd h (by simp [normalizable])
      | vTuple xs => exact absurd h (by simp [normalizable])
      | vSet xs => exact absurd h (by simp [normalizable])
      | vDict es => exact absurd h (by simp [normalizable])
      | vModel fs => exact absurd h (by simp [normalizable])
      | vNp w => exact absurd h (by simp [normalizable])

theorem normalizable_mjs_normalForm_list :
    ∀ xs : List PyVal, normalizableList xs = true →
      normalFormList (make_json_serializableList xs) = true
  | [], _ => rfl
  | x :: xs, h => by
      simp only [normalizableList, Bool.and_eq_true] at h
      simp only [make_json_serializableList, normalFormList, Bool.and_eq_true]
      exact ⟨normalizable_mjs_normalForm x h.1, normalizable_mjs_normalForm_list xs h.2⟩

theorem normalizable_mjs_normalForm_entries :
    ∀ es : List (PyVal × PyVal), normalizableEntries es = true →
      normalFormEntries (make_json_serializableEntries es) = true
  | [], _ => rfl
  | (k, v) :: es, h => by
      simp only [normalizableEntries, Bool.and_eq_true] at h
      simp only [make_json_serializableEntries, normalFormEntries, Bool.and_eq_true]
      refine ⟨⟨?_, normalizable_mjs_normalForm v h.1.2⟩,
        normalizable_mjs_normalForm_entries es h.2⟩
      cases k <;> rfl

end

mutual

theorem normalForm_mjs_id :
    ∀ v : PyVal, normalForm v = true → make_json_serializable v = v
  | .vInt _, _ => rfl
  | .vStr _, _ => rfl
  | .vBool _, _ => rfl
  | .vNone, _ => rfl
  | .vList xs, h => by
      simpa [make_json_serializable] using
        congrArg PyVal.vList (normalForm_mjs_id_list xs h)
  | .vDict es, h => by
      simpa [make_json_serializable] using
        congrArg PyVal.vDict (normalForm_mjs_id_entries es h)
  | .vTuple _, h => absurd h (by simp [normalForm])
  | .vSet _, h => absurd h (by simp [normalForm])
  | .vModel _, h => absurd h (by simp [normalForm])
  | .vNp _, h => absurd h (by simp [normalForm])

theorem normalForm_mjs_id_list :
    ∀ xs : List PyVal, normalFormList xs = true →
      make_json_serializableList xs = xs
  | [], _ => rfl
  | x :: xs, h => by
      simp only [normalFormList, Bool.and_eq_true] at h
      simp only [make_json_serializableList]
      rw [normalForm_mjs_id x h.1, normalForm_mjs_id_list xs h.2]

theorem normalForm_mjs_id_entries :
    ∀ es : List (PyVal × PyVal), normalFormEntries es = true →
      make_json_serializableEntries es = es
  | [], _ => rfl
  | (k, v) :: es, h => by
      simp only [normalFormEntries, Bool.and_eq_true] at h
      simp only [make_json_serializableEntries]
      rw [normalForm_mjs_id v h.1.2, normalForm_mjs_id_entries es h.2]
      cases k with
      | vStr s => rfl
      | vInt n => exact absurd h.1.1 (by simp)
      | vBool b => exact absurd h.1.1 (by simp)
      | vNone => exact absurd h.1.1 (by simp)
      | vList l => exact absurd h.1.1 (by simp)
      | vTuple l => exact absurd h.1.1 (by simp)
      | vSet l => exact absurd h.1.1 (by simp)
      | vDict d => exact absurd h.1.1 (by simp)
      | vModel f => exact absurd h.1.1 (by simp)
      | vNp w => exact absurd h.1.1 (by simp)

end

mutual

theorem normalForm_no_forbidden :
    ∀ v : PyVal, normalForm v = true → containsForbidden v = false
  | .vInt _, _ => rfl
  | .vStr _, _ => rfl
  | .vBool _, _ => rfl
  | .vNone, _ => rfl
  | .vList xs, h => normalForm_no_forbidden_list xs h
  | .vDict es, h => normalForm_no_forbidden_entries es h
  | .vTuple _, h => absurd h (by simp [normalForm])
  | .vSet _, h => absurd h (by simp [normalForm])
  | .vModel _, h => absurd h (by simp [normalForm])
  | .vNp _, h => absurd h (by simp [normalForm])

theorem normalForm_no_forbidden_list :
    ∀ xs : List PyVal, normalFormList xs = true →
      containsForbiddenList xs = false
  | [], _ => rfl
  | x :: xs, h => by
      simp only [normalFormList, Bool.and_eq_true] at h
      simp only [containsForbiddenList, Bool.or_eq_false_iff]
      exact ⟨normalForm_no_forbidden x h.1, normalForm_no_forbidden_list xs h.2⟩

theorem normalForm_no_forbidden_entries :
    ∀ es : List (PyVal × PyVal), normalFormEntries es = true →
      containsForbiddenEntries es = false
  | [], _ => rfl
  | (k, v) :: es, h => by
      simp only [normalFormEntries, Bool.and_eq_true] at h
      simp only [containsForbiddenEntries, Bool.or_eq_false_iff]
      refine ⟨⟨?_, normalForm_no_forbidden v h.1.2⟩,
        normalForm_no_forbidden_entries es h.2⟩
      cases k with
      | vStr s => rfl
      | vInt n => exact absurd h.1.1 (by simp)
      | vBool b => exact absurd h.1.1 (by simp)
      | vNone => exact absurd h.1.1 (by simp)
      | vList l => exact absurd h.1.1 (by simp)
      | vTuple l => exact absurd h.1.1 (by simp)
      | vSet l => exact absurd h.1.1 (by simp)
      | vDict d => exact absurd h.1.1 (by simp)
      | vModel f => exact absurd h.1.1 (by simp)
      | vNp w => exact absurd h.1.1 (by simp)

end

mutual

theorem plainVal_normalizable :
    ∀ v : PyVal, plainVal v = true → normalizable v = true
  | .vInt _, _ => rfl
  | .vStr _, _ => rfl
  | .vBool _, _ => rfl
  | .vNone, _ => rfl
  | .vList xs, h => plainVal_normalizable_list xs h
  | .vTuple xs, h => plainVal_normalizable_list xs h
  | .vDict es, h => plainVal_normalizable_entries es h
  | .vSet _, h => absurd h (by simp [plainVal])
  | .vModel _, h => absurd h (by simp [plainVal])
  | .vNp _, h => absurd h (by simp [plainVal])

theorem plainVal_normalizable_list :
    ∀ xs : List PyVal, plainValList xs = true → normalizableList xs = true
  | [], _ => rfl
  | x :: xs, h => by
      simp only [plainValList, Bool.and_eq_true] at h
      simp only [normalizableList, Bool.and_eq_true]
      exact ⟨plainVal_normalizable x h.1, plainVal_normalizable_list xs h.2⟩

theorem plainVal_normalizable_entries :
    ∀ es : List (PyVal × PyVal), plainValEntries es = true →
      normalizableEntries es = true
  | [], _ => rfl
  | (k, v) :: es, h => by
      simp only [plainValEntries, Bool.and_eq_true] at h
      simp only [normalizableEntries, Bool.and_eq_true]
      exact ⟨⟨plainVal_normalizable k h.1.1, plainVal_normalizable v h.1.2⟩,
        plainVal_normalizable_entries es h.2⟩

end

/-- A Python class, identified by its name together with its method
resolution order (the names of itself and all its ancestors).
`issubclass(a, b)` holds exactly when `b` appears in `a`'s MRO. -/
structure PyClass where
  name : String
  mro : List String

/-- Python's `issubclass` on the embedding of classes. -/
def issubclass (a b : PyClass) : Bool :=
  a.mro.contains b.name

/-- A Python type annotation as `get_snowflake_type` observes it: a plain
class, a parametrized generic alias (whose `get_origin` is its origin
class; a generic alias itself is not a class), or any other non-class
annotation object. -/
inductive PyAnnot where
  | cls (c : PyClass)
  | generic (origin : PyClass) (args : List PyAnnot)
  | other

/-- `typing.get_origin`: the origin class of a parametrized generic,
`None` otherwise. -/
def get_origin : PyAnnot → Option PyClass
  | .generic o _ => some o
  | _ => none

/-- The builtin classes of `pydantic_to_snowflake.py`. -/
def objectC : PyClass := ⟨"object", ["object"]⟩

/-- `bool`, a subclass of `int`. -/
def boolC : PyClass := ⟨"bool", ["bool", "int", "object"]⟩

/-- `int`. -/
def intC : PyClass := ⟨"int", ["int", "object"]⟩

/-- `float`. -/
def floatC : PyClass := ⟨"float", ["float", "object"]⟩

/-- `str`. -/
def strC : PyClass := ⟨"str", ["str", "object"]⟩

/-- `datetime.datetime`, a subclass of `datetime.date`. -/
def datetimeC : PyClass := ⟨"datetime", ["datetime", "date", "object"]⟩

/-- `datetime.date`. -/
def dateC : PyClass := ⟨"date", ["date", "object"]⟩

/-- `pydantic.BaseModel`. -/
def baseModelC : PyClass := ⟨"BaseModel", ["BaseModel", "object"]⟩

/-- `list`. -/
def listC : PyClass := ⟨"list", ["list", "object"]⟩

/-- `dict`. -/
def dictC : PyClass := ⟨"dict", ["dict", "object"]⟩

/-- `tuple`. -/
def tupleC : PyClass := ⟨"tuple", ["tuple", "object"]⟩

/-- `set`. -/
def setC : PyClass := ⟨"set", ["set", "object"]⟩

/-- A user class `MyEnum` subclassing `str` (the spec's custom-mapping
example). -/
def myEnumC : PyClass := ⟨"MyEnum", ["MyEnum", "str", "object"]⟩

/-- The custom-override loop of `get_snowflake_type`: iterate the custom
mapping in insertion order; `isinstance(py_type, type) and
issubclass(py_type, key)` returns the entry's SQL type on the first
subtype match; a non-class key raises `TypeError`, which the source
catches and skips (`continue`), as does a non-class annotation (the
`isinstance` guard short-circuits). -/
def customLookup (py_type : PyAnnot) : List (PyAnnot × String) → Option String
  | [] => none
  | (key, sql) :: rest =>
      match py_type, key with
      | .cls c, .cls k =>
          if issubclass c k then some sql else customLookup py_type rest
      | _, _ => customLookup py_type rest

/-- The class names against which `origin in (list, dict, tuple, set)`
tests the annotation's origin. -/
def containerNames : List String := ["list", "dict", "tuple", "set"]

/-- Whether `get_origin(py_type)` is one of the four container classes. -/
def isContainerOrigin (a : PyAnnot) : Bool :=
  match get_origin a with
  | some o => containerNames.contains o.name
  | none => false

/-- `PydanticToSnowflake.get_snowflake_type`, translated clause by clause:
custom overrides first (in insertion order), then the parametrized
container check, then the fixed chain of builtin subtype checks, and
`"VARIANT"` as the default. -/
def get_snowflake_type (py_type : PyAnnot)
    (custom_mapping : List (PyAnnot × String)) : String :=
  match customLookup py_type custom_mapping with
  | some sql => sql
  | none =>
      if isContainerOrigin py_type then "VARIANT"
      else
        match py_type with
        | .cls c =>
            if issubclass c boolC then "BOOLEAN"
            else if issubclass c intC then "NUMBER"
            else if issubclass c floatC then "FLOAT"
            else if issubclass c strC then "VARCHAR"
            else if issubclass c datetimeC then "TIMESTAMP_NTZ"
            else if issubclass c dateC then "DATE"
            else if issubclass c baseModelC then "VARIANT"
            else "VARIANT"
        | _ => "VARIANT"

/-- Does a class annotation pass one of the builtin subtype checks of
`get_snowflake_type`? -/
def matchesBuiltin : PyAnnot → Bool
  | .cls c =>
      issubclass c boolC || issubclass c intC || issubclass c floatC
        || issubclass c strC || issubclass c datetimeC || issubclass c dateC
        || issubclass c baseModelC
  | _ => false

/-- Python's `str.upper()`: uppercase every character.  (`String.toUpper`
itself is not used because its implementation does not reduce in the
kernel.) -/
def pyUpper (s : String) : String := ⟨s.data.map Char.toUpper⟩

/-- Does the character list `needle` lead (prefix) the character list
`hay`? -/
def leadsWith : List Char → List Char → Bool
  | [], _ => true
  | _ :: _, [] => false
  | a :: as, b :: bs => a == b && leadsWith as bs

/-- Does the character list `needle` occur contiguously inside `hay`?
(Python's `needle in hay` on strings.) -/
def occursIn (needle : List Char) : List Char → Bool
  | [] => needle.isEmpty
  | b :: bs => leadsWith needle (b :: bs) || occursIn needle bs

/-- Python's `needle in hay` substring test on strings. -/
def strContains (hay needle : String) : Bool :=
  occursIn needle.data hay.data

/-- `PydanticToSnowflake.check_table_schema`.  The catalog query against
`INFORMATION_SCHEMA.COLUMNS` is external: its outcome is passed in as an
`Except` — either the `(COLUMN_NAME, DATA_TYPE)` rows ordered by ordinal
position, or a raised exception (e.g. "object does not exist").  The
whole body sits in `try/except Exception: return False`, so a raised
retrieval error yields `false`.  Otherwise: empty result → `false`;
column-count mismatch → `false`; each position must have equal uppercased
names and the expected type contained in the uppercased live type. -/
def check_table_schema (fields : List (String × PyAnnot))
    (custom_mapping : List (PyAnnot × String))
    (queryResult : Except String (List (String × String))) : Bool :=
  match queryResult with
  | .error _ => false
  | .ok rows =>
      if rows.isEmpty then false
      else
        let expected := fields.map
          (fun f => (pyUpper f.1, pyUpper (get_snowflake_type f.2 custom_mapping)))
        if expected.length ≠ rows.length then false
        else
          (List.zip expected rows).all
            (fun p => p.1.1 == pyUpper p.2.1 && strContains (pyUpper p.2.2) p.1.2)

/-- `PydanticToSnowflake.get_create_table_sql`: one `NAME TYPE` clause
per model field in declaration order, names uppercased, types via
`get_snowflake_type`, joined with `", "` into the
`CREATE OR REPLACE TABLE db.schema.table (...)` statement. -/
def get_create_table_sql (database schema table : String)
    (custom_mapping : List (PyAnnot × String))
    (fields : List (String × PyAnnot)) : String :=
  let columns := fields.map
    (fun f => pyUpper f.1 ++ " " ++ get_snowflake_type f.2 custom_mapping)
  let columns_def := String.intercalate ", " columns
  "CREATE OR REPLACE TABLE " ++ database ++ "." ++ schema ++ "." ++ table
    ++ " (" ++ columns_def ++ ")"

/-- The environment `create_table` runs in: whether
`import snowflake.connector.connection` succeeds, and whether the two
execution paths (`self.connection.cursor().execute(sql)` and
`self.connection.execute(sql)`) raise, with their error messages. -/
structure CreateTableEnv where
  snowflake_importable : Bool
  cursor_execute_error : Option String
  conn_execute_error : Option String

/-- The observable outcome of `create_table`. -/
inductive CreateTableResult where
  | importError
  | ok
  | combinedError (msg : String)
deriving DecidableEq

/-- Outcome of `create_table` together with which execution paths were
attempted. -/
structure CreateTableTrace where
  result : CreateTableResult
  cursor_attempted : Bool
  fallback_attempted : Bool
deriving DecidableEq

/-- `PydanticToSnowflake.create_table`: the body begins with
`import snowflake.connector.connection as sc`, so a missing connector
package raises `ImportError` before the DDL string is even built; then
the cursor-execute path is tried, falling back to the connection's own
`execute`, and a `RuntimeError` combining both messages is raised if both
fail. -/
def create_table (env : CreateTableEnv) : CreateTableTrace :=
  if env.snowflake_importable = false then
    ⟨.importError, false, false⟩
  else
    match env.cursor_execute_error with
    | none => ⟨.ok, true, false⟩
    | some e =>
        match env.conn_execute_error with
        | none => ⟨.ok, true, true⟩
        | some e2 =>
            ⟨.combinedError
              ("Table creation failed: " ++ e ++ "; fallback also failed: " ++ e2),
              true, true⟩

/-- The environment `insert_data` runs in: whether `pandas` imports,
whether the connection has a `dialect` attribute, whether `df.to_sql`
raises, whether `snowflake.connector.pandas_tools.write_pandas` can be
imported, the outcome of calling it (a raised exception, or its returned
success flag), and whether the two `executemany` inserts (unquoted and
quoted column names) raise. -/
structure InsertEnv where
  pandas_importable : Bool
  has_dialect : Bool
  to_sql_error : Option String
  write_pandas_importable : Bool
  write_pandas_call : Except String Bool
  unquoted_insert_error : Option String
  quoted_insert_error : Option String

/-- The observable outcome of `insert_data`. -/
inductive InsertResult where
  | importError
  | ok
  | sqlalchemyError (msg : String)
  | uncaughtError (msg : String)
  | combinedError (msg : String)
deriving DecidableEq

/-- Outcome of `insert_data` together with which `executemany` inserts
were attempted. -/
structure InsertTrace where
  result : InsertResult
  unquoted_attempted : Bool
  quoted_attempted : Bool
deriving DecidableEq

/-- `PydanticToSnowflake.insert_data`, modelling the control flow of the
source exactly.  With a `dialect` attribute, `df.to_sql` runs and its
failure is re-raised as a fatal `RuntimeError`.  Without one, the source
has one `try` block whose body imports and calls `write_pandas`, with two
handlers: `except ImportError` runs the unquoted `executemany` insert —
and, per Python semantics, an exception raised inside that handler
propagates without being caught by the sibling `except Exception`
handler — while `except Exception as e` (reached when `write_pandas`
imported but its call raised, or returned an unsuccessful flag) runs the
quoted-identifier `executemany` retry and raises the combined
`RuntimeError` if the retry also fails. -/
def insert_data (env : InsertEnv) : InsertTrace :=
  if env.pandas_importable = false then
    ⟨.importError, false, false⟩
  else if env.has_dialect then
    match env.to_sql_error with
    | none => ⟨.ok, false, false⟩
    | some e => ⟨.sqlalchemyError ("SQLAlchemy insertion failed: " ++ e), false, false⟩
  else if env.write_pandas_importable = false then
    match env.unquoted_insert_error with
    | none => ⟨.ok, true, false⟩
    | some e => ⟨.uncaughtError e, true, false⟩
  else
    match
      (match env.write_pandas_call with
        | .error e => some e
        | .ok true => none
        | .ok false => some "write_pandas failed to insert data.")
    with
    | none => ⟨.ok, false, false⟩
    | some e =>
        match env.quoted_insert_error with
        | none => ⟨.ok, false, true⟩
        | some e2 =>
            ⟨.combinedError
              ("Data insertion failed: " ++ e ++ "; fallback also failed: " ++ e2),
              false, true⟩

/-- An entry of the custom mapping that the override loop passes over
without returning: its key is not a class, or the annotation is not a
class, or the subtype test fails. -/
def noMatchEntry (a : PyAnnot) (e : PyAnnot × String) : Bool :=
  match a, e.1 with
  | .cls c, .cls k => !issubclass c k
  | _, _ => true

theorem customLookup_mem (a : PyAnnot) :
    ∀ (cm : List (PyAnnot × String)) (s : String),
      customLookup a cm = some s → s ∈ cm.map Prod.snd := by
  intro cm
  induction cm with
  | nil => intro s h; simp [customLookup] at h
  | cons e rest ih =>
      intro s h
      obtain ⟨key, sql⟩ := e
      simp only [List.map_cons]
      cases a <;> cases key <;> simp only [customLookup] at h
      case cls.cls c k =>
        split at h
        · exact (Option.some_inj.mp h) ▸ List.mem_cons_self _ _
        · exact List.mem_cons_of_mem _ (ih s h)
      all_goals exact List.mem_cons_of_mem _ (ih s h)

theorem customLookup_append_noMatch (a : PyAnnot) :
    ∀ (pre rest : List (PyAnnot × String)),
      pre.all (noMatchEntry a) = true →
      customLookup a (pre ++ rest) = customLookup a rest := by
  intro pre
  induction pre with
  | nil => intro rest _; rfl
  | cons e pre ih =>
      intro rest h
      simp only [List.all_cons, Bool.and_eq_true] at h
      obtain ⟨key, sql⟩ := e
      cases a <;> cases key <;>
        simp only [List.cons_append, customLookup] <;>
        try exact ih rest h.2
      case cls.cls c k =>
        have hk : issubclass c k = false := by
          simpa [noMatchEntry] using h.1
        simp [hk, ih rest h.2]

theorem customLookup_cons_match (c k : PyClass) (sql : String)
    (rest : List (PyAnnot × String)) (h : issubclass c k = true) :
    customLookup (.cls c) ((.cls k, sql) :: rest) = some sql := by
  simp [customLookup, h]

theorem get_snowflake_type_outputs (a : PyAnnot) (cm : List (PyAnnot × String)) :
    get_snowflake_type a cm ∈ cm.map Prod.snd
      ++ ["BOOLEAN", "NUMBER", "FLOAT", "VARCHAR", "TIMESTAMP_NTZ", "DATE", "VARIANT"] := by
  cases h : customLookup a cm with
  | some s =>
      simp only [get_snowflake_type, h]
      exact List.mem_append_left _ (customLookup_mem a cm s h)
  | none =>
      simp only [get_snowflake_type, h]
      refine List.mem_append_right _ ?_
      split
      · simp
      · split
        all_goals first
          | (split_ifs <;> simp)
          | simp

theorem get_snowflake_type_default (a : PyAnnot) (cm : List (PyAnnot × String))
    (h1 : customLookup a cm = none) (h2 : isContainerOrigin a = false)
    (h3 : matchesBuiltin a = false) :
    get_snowflake_type a cm = "VARIANT" := by
  simp only [get_snowflake_type, h1, h2, if_false]
  cases a with
  | cls c =>
      simp only [matchesBuiltin, Bool.or_eq_false_iff] at h3
      obtain ⟨⟨⟨⟨⟨⟨hb, hi⟩, hf⟩, hs⟩, hdt⟩, hd⟩, hm⟩ := h3
      simp [hb, hi, hf, hs, hdt, hd, hm]
  | generic o args => rfl
  | other => rfl

/-- Claim C4: `get_snowflake_type` maps the annotation `bool` to
`"BOOLEAN"` and the annotation `int` to `"NUMBER"`; because the boolean
subtype check precedes the integer check, `bool` (a subclass of `int`)
yields `"BOOLEAN"` and never `"NUMBER"`. -/
theorem claim_C4_bool_boolean_int_number :
    get_snowflake_type (.cls boolC) [] = "BOOLEAN"
      ∧ get_snowflake_type (.cls boolC) [] ≠ "NUMBER"
      ∧ get_snowflake_type (.cls intC) [] = "NUMBER" := by
  refine ⟨rfl, by decide, rfl⟩

/-- Claim C5: custom-mapping entries are checked first in insertion
order; the first entry whose matcher class the class annotation is a
subtype of determines the result immediately, before any built-in check
(entries the loop skips are those failing `noMatchEntry`); in particular
`MyEnum` (a subclass of `str`) with custom mapping
`[(MyEnum, "VARCHAR")]` yields `"VARCHAR"` via the custom path. -/
theorem claim_C5_custom_mapping_first_match :
    (∀ (c k : PyClass) (sql : String) (pre post : List (PyAnnot × String)),
        pre.all (noMatchEntry (.cls c)) = true →
        issubclass c k = true →
        get_snowflake_type (.cls c) (pre ++ (.cls k, sql) :: post) = sql)
      ∧ get_snowflake_type (.cls myEnumC) [(.cls myEnumC, "VARCHAR")] = "VARCHAR" := by
  constructor
  · intro c k sql pre post hpre hk
    simp only [get_snowflake_type,
      customLookup_append_noMatch (.cls c) pre _ hpre,
      customLookup_cons_match c k sql post hk]
  · rfl

/-- Witness for C5 at the spec's own example: `MyEnum` subclasses `str`
and a one-entry custom mapping resolves it to `"VARCHAR"`. -/
theorem claim_C5_witness :
    get_snowflake_type (.cls myEnumC) ([] ++ (.cls myEnumC, "VARCHAR") :: []) = "VARCHAR" :=
  claim_C5_custom_mapping_first_match.1 myEnumC myEnumC "VARCHAR" [] [] rfl rfl

/-- Claim C6: for every annotation and custom mapping,
`get_snowflake_type` returns a string drawn from the custom mapping's
values or the seven built-in type names (the embedding is total, the
source catches every exception its checks can raise); an annotation
matching no custom entry, no container-origin check and no built-in
subtype check yields the default `"VARIANT"`. -/
theorem claim_C6_total_default_variant :
    ∀ (a : PyAnnot) (cm : List (PyAnnot × String)),
      (get_snowflake_type a cm ∈ cm.map Prod.snd
        ++ ["BOOLEAN", "NUMBER", "FLOAT", "VARCHAR", "TIMESTAMP_NTZ", "DATE", "VARIANT"])
      ∧ (customLookup a cm = none → isContainerOrigin a = false →
          matchesBuiltin a = false → get_snowflake_type a cm = "VARIANT") :=
  fun a cm =>
    ⟨get_snowflake_type_outputs a cm,
     fun h1 h2 h3 => get_snowflake_type_default a cm h1 h2 h3⟩

/-- Witness for C6 at a concrete unmappable annotation (a bare user
class with no recognised ancestor): the default is `"VARIANT"`. -/
theorem claim_C6_witness :
    get_snowflake_type (.cls ⟨"Widget", ["Widget", "object"]⟩) [] ∈
        ([] : List (PyAnnot × String)).map Prod.snd
          ++ ["BOOLEAN", "NUMBER", "FLOAT", "VARCHAR", "TIMESTAMP_NTZ", "DATE", "VARIANT"]
      ∧ get_snowflake_type (.cls ⟨"Widget", ["Widget", "object"]⟩) [] = "VARIANT" :=
  ⟨(claim_C6_total_default_variant (.cls ⟨"Widget", ["Widget", "object"]⟩) []).1,
   (claim_C6_total_default_variant (.cls ⟨"Widget", ["Widget", "object"]⟩) []).2
     rfl rfl rfl⟩

/-- Claim C7: `check_table_schema` accepts a column position whenever the
uppercased expected name equals the uppercased live name and the
uppercased expected type occurs as a substring of the uppercased live
declared type; in particular a live `VARCHAR(16777216)` matches an
expected `VARCHAR`, so a schema differing from the live table only by
such type decoration is reported as matching. -/
theorem claim_C7_substring_type_match :
    (∀ (fields : List (String × PyAnnot)) (cm : List (PyAnnot × String))
        (rows : List (String × String)),
        rows ≠ [] →
        fields.length = rows.length →
        (∀ p ∈ List.zip
            (fields.map (fun f => (pyUpper f.1, pyUpper (get_snowflake_type f.2 cm))))
            rows,
          p.1.1 = pyUpper p.2.1 ∧ strContains (pyUpper p.2.2) p.1.2 = true) →
        check_table_schema fields cm (.ok rows) = true)
      ∧ check_table_schema [("name", .cls strC)] []
          (.ok [("NAME", "VARCHAR(16777216)")]) = true := by
  constructor
  · intro fields cm rows hne hlen hall
    simp only [check_table_schema, List.isEmpty_eq_true, hne, if_false]
    rw [if_neg (by simp [hlen])]
    rw [List.all_eq_true]
    intro p hp
    obtain ⟨h1, h2⟩ := hall p hp
    simp [h1, h2]
  · rfl

/-- Witness for C7: a single `VARCHAR` column against a live
`VARCHAR(16777216)` declaration is accepted. -/
theorem claim_C7_witness :
    check_table_schema [("name", .cls strC)] []
      (.ok [("NAME", "VARCHAR(16777216)")]) = true :=
  claim_C7_substring_type_match.1 [("name", .cls strC)] []
    [("NAME", "VARCHAR(16777216)")] (by simp) rfl (by decide)

/-- Claim C8: every exception during the catalog query of
`check_table_schema` is swallowed by its `try/except` and the method
returns `False` instead of propagating. -/
theorem claim_C8_exception_returns_false :
    ∀ (msg : String) (fields : List (String × PyAnnot))
      (cm : List (PyAnnot × String)),
      check_table_schema fields cm (.error msg) = false :=
  fun _ _ _ => rfl

/-- Claim C9: `get_create_table_sql` on the schema
`{id: int, name: str, tags: list[str]}` with identifiers `D`, `S`, `T`
produces exactly
`CREATE OR REPLACE TABLE D.S.T (ID NUMBER, NAME VARCHAR, TAGS VARIANT)`:
fields in declaration order, names uppercased, types via
`get_snowflake_type`. -/
theorem claim_C9_create_table_sql :
    get_create_table_sql "D" "S" "T" []
      [("id", .cls intC), ("name", .cls strC), ("tags", .generic listC [.cls strC])]
      = "CREATE OR REPLACE TABLE D.S.T (ID NUMBER, NAME VARCHAR, TAGS VARIANT)" := by
  rfl

/-- Claim C10: when the snowflake connector package cannot be imported,
`create_table` raises `ImportError` from its first statement: neither the
cursor-execute path nor the fallback connection-execute path is
attempted, and no combined failure is produced. -/
theorem claim_C10_import_error_first :
    ∀ env : CreateTableEnv, env.snowflake_importable = false →
      create_table env = ⟨.importError, false, false⟩ := by
  intro env h
  simp [create_table, h]

/-- Witness for C10 at a concrete environment in which both execution
paths would succeed, yet the missing import still aborts first. -/
theorem claim_C10_witness :
    create_table ⟨false, none, none⟩ = ⟨.importError, false, false⟩ :=
  claim_C10_import_error_first ⟨false, none, none⟩ rfl

/-- A concrete environment for claim C1: pandas imports, the connection
has no `dialect` attribute, `write_pandas` cannot be imported, the
unquoted `executemany` insert raises, and the quoted insert would
succeed. -/
def c1Env : InsertEnv :=
  ⟨true, false, none, false, .ok true, some "insert failed", none⟩

/-- Counterexample to claim C1: in `c1Env` the claim demands that the
unquoted failure be retried with quoted column names (which here would
succeed) and a combined error only if the retry also fails; the code
instead lets the unquoted insert's exception propagate from inside the
`except ImportError` handler — the quoted retry is never attempted and no
combined error is built. -/
theorem claim_C1_counterexample :
    c1Env.has_dialect = false
      ∧ c1Env.write_pandas_importable = false
      ∧ c1Env.unquoted_insert_error = some "insert failed"
      ∧ c1Env.quoted_insert_error = none
      ∧ (insert_data c1Env).quoted_attempted = false
      ∧ (insert_data c1Env).result = .uncaughtError "insert failed" :=
  ⟨rfl, rfl, rfl, rfl, rfl, rfl⟩

/-- Claim C1 as amended: on a connection without a `dialect` attribute
and with `write_pandas` unimportable, `insert_data` falls through to the
row-by-row `executemany` insert with unquoted uppercased column names;
if that insert raises, its exception propagates immediately — the quoted
retry is never attempted and no combined error is raised.  (The quoted
retry and the combined failure belong to the `except Exception` path,
reached only when `write_pandas` imports but its call fails.) -/
theorem claim_C1_amended_no_retry :
    ∀ env : InsertEnv,
      env.pandas_importable = true →
      env.has_dialect = false →
      env.write_pandas_importable = false →
      (insert_data env).unquoted_attempted = true
        ∧ (insert_data env).quoted_attempted = false
        ∧ (env.unquoted_insert_error = none → (insert_data env).result = .ok)
        ∧ (∀ e, env.unquoted_insert_error = some e →
            (insert_data env).result = .uncaughtError e) := by
  intro env hp hd hw
  obtain ⟨p, d, ts, wi, wc, ue, qe⟩ := env
  cases hp; cases hd; cases hw
  cases ue with
  | none =>
      refine ⟨rfl, rfl, fun _ => rfl, ?_⟩
      intro e he
      cases he
  | some e =>
      refine ⟨rfl, rfl, ?_, ?_⟩
      · intro h
        cases h
      · intro e' he
        cases he
        rfl

/-- Witness for the amended C1 at a concrete environment whose unquoted
insert succeeds. -/
theorem claim_C1_amended_witness :
    (insert_data ⟨true, false, none, false, .ok true, none, none⟩).unquoted_attempted = true
      ∧ (insert_data ⟨true, false, none, false, .ok true, none, none⟩).quoted_attempted = false
      ∧ (insert_data ⟨true, false, none, false, .ok true, none, none⟩).result = .ok :=
  ⟨(claim_C1_amended_no_retry ⟨true, false, none, false, .ok true, none, none⟩ rfl rfl rfl).1,
   (claim_C1_amended_no_retry ⟨true, false, none, false, .ok true, none, none⟩ rfl rfl rfl).2.1,
   (claim_C1_amended_no_retry ⟨true, false, none, false, .ok true, none, none⟩ rfl rfl rfl).2.2.1 rfl⟩

/-- Counterexample to claim C2: a set is returned unchanged by
`_make_json_serializable` (no branch handles it), and a `BaseModel`
instance is replaced by its `model_dump()`, which is not re-normalized
and may still hold a tuple — so the output can contain a set or a tuple. -/
theorem claim_C2_counterexample :
    containsForbidden (make_json_serializable (.vSet [.vInt 1])) = true
      ∧ containsForbidden
          (make_json_serializable (.vModel [("t", .vTuple [.vInt 1, .vInt 2])])) = true :=
  ⟨rfl, rfl⟩

/-- Claim C2 as amended: for every input free of sets and `BaseModel`
instances at every depth (with NumPy scalars wrapping native
primitives), the result of `_make_json_serializable` never contains a
tuple, a set, a `BaseModel` instance, or a mapping with a non-string
key.  Sets are passed through unchanged and `model_dump()` output is not
re-normalized, so inputs containing either can violate the invariant. -/
theorem claim_C2_amended_invariant :
    ∀ v : PyVal, normalizable v = true →
      containsForbidden (make_json_serializable v) = false :=
  fun v h => normalForm_no_forbidden _ (normalizable_mjs_normalForm v h)

/-- Witness for the amended C2 at a concrete nested value with a tuple
and an integer-keyed dict. -/
theorem claim_C2_amended_witness :
    containsForbidden
      (make_json_serializable
        (.vList [.vInt 1, .vTuple [.vInt 2], .vDict [(.vInt 3, .vStr "a")]])) = false :=
  claim_C2_amended_invariant
    (.vList [.vInt 1, .vTuple [.vInt 2], .vDict [(.vInt 3, .vStr "a")]]) rfl

/-- Claim C3: `_make_json_serializable` is idempotent on every value
built from primitive scalars, lists, tuples and dicts. -/
theorem claim_C3_idempotent :
    ∀ v : PyVal, plainVal v = true →
      make_json_serializable (make_json_serializable v) = make_json_serializable v :=
  fun v h =>
    normalForm_mjs_id _ (normalizable_mjs_normalForm v (plainVal_normalizable v h))

/-- Witness for C3 at the spec's own example `[1, [2, 3], {"x": 1}]`. -/
theorem claim_C3_witness :
    make_json_serializable
        (make_json_serializable
          (.vList [.vInt 1, .vList [.vInt 2, .vInt 3], .vDict [(.vStr "x", .vInt 1)]]))
      = make_json_serializable
          (.vList [.vInt 1, .vList [.vInt 2, .vInt 3], .vDict [(.vStr "x", .vInt 1)]]) :=
  claim_C3_idempotent
    (.vList [.vInt 1, .vList [.vInt 2, .vInt 3], .vDict [(.vStr "x", .vInt 1)]]) rfl
